import Mathlib

/-!
Verification development for the CR450 data-check pipeline
(`CR450DataCheck/DataCheck_V1.0.1.py`).

The relevant parts of the program are shallowly embedded:

* a frame is a `List Nat` of byte values;
* decoded engineering values live in `ℚ` with the exact scale factors of
  the source (`* 0.01`, `* 0.001`, `* 0.1`); for a fixed field and scale
  the map from the raw integer to the Python float is strictly monotone,
  so every comparison made by the program has the same outcome over `ℚ`;
* the timestamp is the Unix epoch second count in the fixed UTC
  convention (the source converts through the host timezone; the spec
  allows any one fixed convention);
* a value that Python represents as "formatted time string or the
  integer 0" is the inductive `Val` below, with the epoch seconds
  standing for the (injectively) formatted string;
* fallible decoding returns `Except Unit`.
-/

set_option maxRecDepth 100000

deriving instance DecidableEq for Except

/-- Big-endian unsigned 16-bit field, `struct.unpack('>H', frame[i:i+2])[0]`. -/
def u16be (f : List Nat) (i : Nat) : Nat :=
  256 * f.getD i 0 + f.getD (i + 1) 0

/-- A summary-vector slot: either a numeric value (initially `0`) or the
timestamp of the last frame where a status condition held. -/
inductive Val where
  | num (q : ℚ)
  | time (t : Int)
deriving DecidableEq

/-- Numeric reading of a slot; event slots only ever hold `num` values in
the positions where the program compares numerically. -/
def Val.toQ : Val → ℚ
  | .num q => q
  | .time _ => 0

/-- Gregorian leap-year rule, as used by Python `datetime`. -/
def isLeapYear (y : Nat) : Bool :=
  (y % 4 == 0 && y % 100 != 0) || (y % 400 == 0)

/-- Length of a month, as validated by the `datetime` constructor. -/
def daysInMonth (y m : Nat) : Nat :=
  if m = 2 then (if isLeapYear y then 29 else 28)
  else if m = 4 ∨ m = 6 ∨ m = 9 ∨ m = 11 then 30
  else 31

/-- The calendar validity check performed by `datetime(year, month, day,
hour, minute, second)`: it raises `ValueError` unless all fields are in
range.  The year is always in `[2000, 2255]` here, inside datetime's
`[1, 9999]`. -/
def validDate (y mo d h mi s : Nat) : Bool :=
  1 ≤ mo && mo ≤ 12 && 1 ≤ d && d ≤ daysInMonth y mo &&
  h ≤ 23 && mi ≤ 59 && s ≤ 59

/-- Leap years strictly before year `y` (proleptic Gregorian). -/
def leapsBefore (y : Nat) : Nat :=
  (y - 1) / 4 - (y - 1) / 100 + (y - 1) / 400

/-- Days from 1970-01-01 to the start of year `y` (for `y ≥ 1970`). -/
def daysBeforeYear (y : Nat) : Nat :=
  365 * (y - 1970) + (leapsBefore y - leapsBefore 1970)

/-- Days in year `y` before the start of month `mo`. -/
def daysBeforeMonth (y mo : Nat) : Nat :=
  ((List.range (mo - 1)).map (fun k => daysInMonth y (k + 1))).sum

/-- Unix epoch seconds of the wall-clock instant, in the fixed (UTC)
convention of this development. -/
def unixEpoch (y mo d h mi s : Nat) : Int :=
  ((86400 * (daysBeforeYear y + daysBeforeMonth y mo + (d - 1)) +
    3600 * h + 60 * mi + s : Nat) : Int)

/-- `extract_frame_time(frame, time_offset)`: rejects frames shorter than
255 bytes, reads six consecutive bytes at `time_offset` (an out-of-range
read raises, re-raised as `ValueError`), interprets them as
`2000+year, month, day, hour, minute, second`, validates the calendar
fields through the `datetime` constructor and returns epoch seconds. -/
def extract_frame_time (frame : List Nat) (time_offset : Nat) : Except Unit Int :=
  if frame.length < 255 then .error ()
  else if frame.length < time_offset + 6 then .error ()
  else
    let year := 2000 + frame.getD time_offset 0
    let month := frame.getD (time_offset + 1) 0
    let day := frame.getD (time_offset + 2) 0
    let hour := frame.getD (time_offset + 3) 0
    let minute := frame.getD (time_offset + 4) 0
    let second := frame.getD (time_offset + 5) 0
    if validDate year month day hour minute second then
      .ok (unixEpoch year month day hour minute second)
    else .error ()

/-- The timestamp a data-judge function computes per frame
(`extract_frame_time` on an already-validated frame); on the frames the
reader emits this never takes the default. -/
def frameTime (f : List Nat) (t : Nat) : Int :=
  ((extract_frame_time f t).toOption).getD 0

/-- Calendar year containing epoch instant `t` (`datetime.fromtimestamp(t).year`
in the fixed convention); days-to-civil conversion. -/
def yearOfEpoch (t : Int) : Int :=
  let z : Int := t.fdiv 86400 + 719468
  let era : Int := z.fdiv 146097
  let doe : Int := z - era * 146097
  let yoe : Int := (doe - doe / 1460 + doe / 36524 - doe / 146096) / 365
  let y : Int := yoe + era * 400
  let doy : Int := doe - (365 * yoe + yoe / 4 - yoe / 100)
  let mp : Int := (5 * doy + 2) / 153
  if mp < 10 then y else y + 1


/-! ## WNDS profile aggregation (`WNDS_data_judge`) -/

/-- The repeated max-with-speed-tiebreak block of the source
(`if v > max: max, speed := v, s  elif v == max: if s > speed: speed := s`),
on an accumulator `(best_value, assoc_speed)`. -/
def maxTie (acc : ℚ × ℚ) (v s : ℚ) : ℚ × ℚ :=
  if v > acc.1 then (v, s)
  else if v = acc.1 then (if s > acc.2 then (acc.1, s) else acc)
  else acc

/-- The three-key block of the source for the two main-frequency-amplitude
channels, on an accumulator `(amp_max, fre, speed)`. -/
def maxAFS (acc : ℚ × ℚ × ℚ) (amp fre s : ℚ) : ℚ × ℚ × ℚ :=
  if amp > acc.1 then (amp, fre, s)
  else if amp = acc.1 then
    (if fre > acc.2.1 then (acc.1, fre, s)
     else if fre = acc.2.1 then (if s > acc.2.2 then (acc.1, acc.2.1, s) else acc)
     else acc)
  else acc

/-- The event-timestamp block of the source: when the status condition
holds, overwrite the slot with this frame's formatted time. -/
def evUpd (cur : Val) (cond : Bool) (ft : Int) : Val :=
  if cond then .time ft else cur

/-- Decoded speed, `struct.unpack('>H', frame[78:80])[0] * 0.01`. -/
def wndsSpeed (f : List Nat) : ℚ :=
  (u16be f 78 : ℚ) * (1 / 100)

/-- Accumulator variables of `WNDS_data_judge`, named as in the source;
a `_max`/`_speed` pair of source variables is one `ℚ × ℚ` field, the two
main-frequency channels are `(max, fre, speed)` triples. -/
structure WNDSState where
  speed_max : ℚ
  sharedata_comm : Val
  sensor_check : Val
  sensor_realtime : Val
  stable_HX_warn : Val
  stable_HX_alarm : Val
  stable_CX_warn : Val
  stable_CX_alarm : Val
  douche_warn : Val
  douche_alarm : Val
  shake_warn : Val
  shake_alarm : Val
  stable_1HX : ℚ × ℚ
  stable_2HX : ℚ × ℚ
  stable_1CX : ℚ × ℚ
  stable_2CX : ℚ × ℚ
  peak_0p2_3_1HX : ℚ × ℚ
  peak_0p2_3_2HX : ℚ × ℚ
  rms_5_13_1HX : ℚ × ℚ
  rms_5_13_2HX : ℚ × ℚ
  rms_5_13_1CX : ℚ × ℚ
  rms_5_13_2CX : ℚ × ℚ
  main_fre_amp_1CX : ℚ × ℚ × ℚ
  main_fre_amp_2CX : ℚ × ℚ × ℚ
  acc_max_1HX : ℚ × ℚ
  acc_max_2HX : ℚ × ℚ
  acc_valid_1HX : ℚ × ℚ
  acc_valid_2HX : ℚ × ℚ
  acc_max_1CX : ℚ × ℚ
  acc_max_2CX : ℚ × ℚ
  acc_valid_1CX : ℚ × ℚ
  acc_valid_2CX : ℚ × ℚ
deriving DecidableEq

/-- All accumulators start at `0`. -/
def initWNDS : WNDSState :=
  { speed_max := 0
    sharedata_comm := .num 0, sensor_check := .num 0, sensor_realtime := .num 0
    stable_HX_warn := .num 0, stable_HX_alarm := .num 0
    stable_CX_warn := .num 0, stable_CX_alarm := .num 0
    douche_warn := .num 0, douche_alarm := .num 0
    shake_warn := .num 0, shake_alarm := .num 0
    stable_1HX := (0, 0), stable_2HX := (0, 0)
    stable_1CX := (0, 0), stable_2CX := (0, 0)
    peak_0p2_3_1HX := (0, 0), peak_0p2_3_2HX := (0, 0)
    rms_5_13_1HX := (0, 0), rms_5_13_2HX := (0, 0)
    rms_5_13_1CX := (0, 0), rms_5_13_2CX := (0, 0)
    main_fre_amp_1CX := (0, 0, 0), main_fre_amp_2CX := (0, 0, 0)
    acc_max_1HX := (0, 0), acc_max_2HX := (0, 0)
    acc_valid_1HX := (0, 0), acc_valid_2HX := (0, 0)
    acc_max_1CX := (0, 0), acc_max_2CX := (0, 0)
    acc_valid_1CX := (0, 0), acc_valid_2CX := (0, 0) }

/-- One loop iteration of `WNDS_data_judge` (source lines 322-506):
byte offsets, bit masks and scales transcribed from the source. -/
def wndsStep (t : Nat) (st : WNDSState) (f : List Nat) : WNDSState :=
  let ft := frameTime f t
  let speed := wndsSpeed f
  { speed_max := if speed > st.speed_max then speed else st.speed_max
    sharedata_comm := evUpd st.sharedata_comm
      (f.getD 87 0 &&& 16 != 0 || f.getD 87 0 &&& 32 != 0) ft
    sensor_check := evUpd st.sensor_check
      (f.getD 90 0 &&& 1 != 0 || f.getD 90 0 &&& 2 != 0) ft
    sensor_realtime := evUpd st.sensor_realtime
      (f.getD 90 0 &&& 4 != 0 || f.getD 90 0 &&& 8 != 0) ft
    stable_HX_warn := evUpd st.stable_HX_warn (f.getD 88 0 &&& 1 != 0) ft
    stable_HX_alarm := evUpd st.stable_HX_alarm (f.getD 88 0 &&& 16 != 0) ft
    stable_CX_warn := evUpd st.stable_CX_warn (f.getD 88 0 &&& 2 != 0) ft
    stable_CX_alarm := evUpd st.stable_CX_alarm (f.getD 88 0 &&& 32 != 0) ft
    douche_warn := evUpd st.douche_warn (f.getD 89 0 &&& 2 != 0) ft
    douche_alarm := evUpd st.douche_alarm (f.getD 89 0 &&& 32 != 0) ft
    shake_warn := evUpd st.shake_warn (f.getD 89 0 &&& 1 != 0) ft
    shake_alarm := evUpd st.shake_alarm (f.getD 89 0 &&& 16 != 0) ft
    stable_1HX := maxTie st.stable_1HX ((u16be f 105 : ℚ) * (1 / 100)) speed
    stable_2HX := maxTie st.stable_2HX ((u16be f 107 : ℚ) * (1 / 100)) speed
    stable_1CX := maxTie st.stable_1CX ((u16be f 109 : ℚ) * (1 / 100)) speed
    stable_2CX := maxTie st.stable_2CX ((u16be f 111 : ℚ) * (1 / 100)) speed
    peak_0p2_3_1HX := maxTie st.peak_0p2_3_1HX ((f.getD 93 0 : ℚ) * (1 / 1000)) speed
    peak_0p2_3_2HX := maxTie st.peak_0p2_3_2HX ((f.getD 94 0 : ℚ) * (1 / 1000)) speed
    rms_5_13_1HX := maxTie st.rms_5_13_1HX ((f.getD 95 0 : ℚ) * (1 / 1000)) speed
    rms_5_13_2HX := maxTie st.rms_5_13_2HX ((f.getD 96 0 : ℚ) * (1 / 1000)) speed
    rms_5_13_1CX := maxTie st.rms_5_13_1CX ((f.getD 97 0 : ℚ) * (1 / 1000)) speed
    rms_5_13_2CX := maxTie st.rms_5_13_2CX ((f.getD 98 0 : ℚ) * (1 / 1000)) speed
    main_fre_amp_1CX := maxAFS st.main_fre_amp_1CX
      ((f.getD 99 0 : ℚ) * (1 / 1000)) ((u16be f 101 : ℚ) * (1 / 10)) speed
    main_fre_amp_2CX := maxAFS st.main_fre_amp_2CX
      ((f.getD 100 0 : ℚ) * (1 / 1000)) ((u16be f 103 : ℚ) * (1 / 10)) speed
    acc_max_1HX := maxTie st.acc_max_1HX ((u16be f 117 : ℚ) * (1 / 1000)) speed
    acc_max_2HX := maxTie st.acc_max_2HX ((u16be f 119 : ℚ) * (1 / 1000)) speed
    acc_valid_1HX := maxTie st.acc_valid_1HX ((u16be f 129 : ℚ) * (1 / 1000)) speed
    acc_valid_2HX := maxTie st.acc_valid_2HX ((u16be f 131 : ℚ) * (1 / 1000)) speed
    acc_max_1CX := maxTie st.acc_max_1CX ((u16be f 121 : ℚ) * (1 / 1000)) speed
    acc_max_2CX := maxTie st.acc_max_2CX ((u16be f 123 : ℚ) * (1 / 1000)) speed
    acc_valid_1CX := maxTie st.acc_valid_1CX ((u16be f 133 : ℚ) * (1 / 1000)) speed
    acc_valid_2CX := maxTie st.acc_valid_2CX ((u16be f 135 : ℚ) * (1 / 1000)) speed }

/-- The accumulator state after the whole `for frame in framelist` loop. -/
def wndsState (framelist : List (List Nat)) (t : Nat) : WNDSState :=
  framelist.foldl (wndsStep t) initWNDS

/-- `WNDS_data_judge(framelist, time_offset)`: the 54-entry `variables`
list of the source, in source order. -/
def WNDS_data_judge (framelist : List (List Nat)) (t : Nat) : List Val :=
  let st := wndsState framelist t
  [ .num st.speed_max,
    st.sharedata_comm, st.sensor_check, st.sensor_realtime,
    st.stable_HX_warn, st.stable_HX_alarm, st.stable_CX_warn, st.stable_CX_alarm,
    st.douche_warn, st.douche_alarm, st.shake_warn, st.shake_alarm,
    .num st.stable_1HX.1, .num st.stable_1HX.2,
    .num st.stable_2HX.1, .num st.stable_2HX.2,
    .num st.stable_1CX.1, .num st.stable_1CX.2,
    .num st.stable_2CX.1, .num st.stable_2CX.2,
    .num st.peak_0p2_3_1HX.1, .num st.peak_0p2_3_1HX.2,
    .num st.peak_0p2_3_2HX.1, .num st.peak_0p2_3_2HX.2,
    .num st.rms_5_13_1HX.1, .num st.rms_5_13_1HX.2,
    .num st.rms_5_13_2HX.1, .num st.rms_5_13_2HX.2,
    .num st.rms_5_13_1CX.1, .num st.rms_5_13_1CX.2,
    .num st.rms_5_13_2CX.1, .num st.rms_5_13_2CX.2,
    .num st.main_fre_amp_1CX.1, .num st.main_fre_amp_1CX.2.1, .num st.main_fre_amp_1CX.2.2,
    .num st.main_fre_amp_2CX.1, .num st.main_fre_amp_2CX.2.1, .num st.main_fre_amp_2CX.2.2,
    .num st.acc_max_1HX.1, .num st.acc_max_1HX.2,
    .num st.acc_max_2HX.1, .num st.acc_max_2HX.2,
    .num st.acc_valid_1HX.1, .num st.acc_valid_1HX.2,
    .num st.acc_valid_2HX.1, .num st.acc_valid_2HX.2,
    .num st.acc_max_1CX.1, .num st.acc_max_1CX.2,
    .num st.acc_max_2CX.1, .num st.acc_max_2CX.2,
    .num st.acc_valid_1CX.1, .num st.acc_valid_1CX.2,
    .num st.acc_valid_2CX.1, .num st.acc_valid_2CX.2 ]

/-! ## BIDS profile aggregation (`BIDS_data_judge`) -/

/-- Accumulator variables of `BIDS_data_judge`, named as in the source. -/
structure BIDSState where
  speed_max : ℚ
  sharedata_comm : Val
  sensor_check : Val
  sensor_realtime : Val
  offset_fault : Val
  bogie_warn : Val
  bogie_alarm : Val
  min_1HX : ℚ × ℚ
  min_2HX : ℚ × ℚ
  min_3HX : ℚ × ℚ
  min_4HX : ℚ × ℚ
  mean_1HX : ℚ × ℚ
  mean_2HX : ℚ × ℚ
  mean_3HX : ℚ × ℚ
  mean_4HX : ℚ × ℚ
  max_1HX : ℚ × ℚ
  max_2HX : ℚ × ℚ
  max_3HX : ℚ × ℚ
  max_4HX : ℚ × ℚ
  rms_1HX : ℚ × ℚ
  rms_2HX : ℚ × ℚ
  rms_3HX : ℚ × ℚ
  rms_4HX : ℚ × ℚ
  max_1CX : ℚ × ℚ
  max_2CX : ℚ × ℚ
  max_3CX : ℚ × ℚ
  max_4CX : ℚ × ℚ
  rms_1CX : ℚ × ℚ
  rms_2CX : ℚ × ℚ
  rms_3CX : ℚ × ℚ
  rms_4CX : ℚ × ℚ
deriving DecidableEq

/-- All accumulators start at `0`. -/
def initBIDS : BIDSState :=
  { speed_max := 0
    sharedata_comm := .num 0, sensor_check := .num 0, sensor_realtime := .num 0
    offset_fault := .num 0, bogie_warn := .num 0, bogie_alarm := .num 0
    min_1HX := (0, 0), min_2HX := (0, 0), min_3HX := (0, 0), min_4HX := (0, 0)
    mean_1HX := (0, 0), mean_2HX := (0, 0), mean_3HX := (0, 0), mean_4HX := (0, 0)
    max_1HX := (0, 0), max_2HX := (0, 0), max_3HX := (0, 0), max_4HX := (0, 0)
    rms_1HX := (0, 0), rms_2HX := (0, 0), rms_3HX := (0, 0), rms_4HX := (0, 0)
    max_1CX := (0, 0), max_2CX := (0, 0), max_3CX := (0, 0), max_4CX := (0, 0)
    rms_1CX := (0, 0), rms_2CX := (0, 0), rms_3CX := (0, 0), rms_4CX := (0, 0) }

/-- One loop iteration of `BIDS_data_judge` (source lines 638-827). -/
def bidsStep (t : Nat) (st : BIDSState) (f : List Nat) : BIDSState :=
  let ft := frameTime f t
  let speed := wndsSpeed f
  { speed_max := if speed > st.speed_max then speed else st.speed_max
    sharedata_comm := evUpd st.sharedata_comm
      (f.getD 87 0 &&& 16 != 0 || f.getD 87 0 &&& 32 != 0) ft
    sensor_check := evUpd st.sensor_check (f.getD 89 0 &&& 15 != 0) ft
    sensor_realtime := evUpd st.sensor_realtime (f.getD 89 0 &&& 240 != 0) ft
    offset_fault := evUpd st.offset_fault (f.getD 90 0 &&& 15 != 0) ft
    bogie_warn := evUpd st.bogie_warn (f.getD 91 0 &&& 15 != 0) ft
    bogie_alarm := evUpd st.bogie_alarm (f.getD 91 0 &&& 240 != 0) ft
    min_1HX := maxTie st.min_1HX ((u16be f 92 : ℚ) * (1 / 1000)) speed
    min_2HX := maxTie st.min_2HX ((u16be f 94 : ℚ) * (1 / 1000)) speed
    min_3HX := maxTie st.min_3HX ((u16be f 96 : ℚ) * (1 / 1000)) speed
    min_4HX := maxTie st.min_4HX ((u16be f 98 : ℚ) * (1 / 1000)) speed
    mean_1HX := maxTie st.mean_1HX ((u16be f 100 : ℚ) * (1 / 1000)) speed
    mean_2HX := maxTie st.mean_2HX ((u16be f 102 : ℚ) * (1 / 1000)) speed
    mean_3HX := maxTie st.mean_3HX ((u16be f 104 : ℚ) * (1 / 1000)) speed
    mean_4HX := maxTie st.mean_4HX ((u16be f 106 : ℚ) * (1 / 1000)) speed
    max_1HX := maxTie st.max_1HX ((u16be f 108 : ℚ) * (1 / 1000)) speed
    max_2HX := maxTie st.max_2HX ((u16be f 110 : ℚ) * (1 / 1000)) speed
    max_3HX := maxTie st.max_3HX ((u16be f 112 : ℚ) * (1 / 1000)) speed
    max_4HX := maxTie st.max_4HX ((u16be f 114 : ℚ) * (1 / 1000)) speed
    rms_1HX := maxTie st.rms_1HX ((u16be f 116 : ℚ) * (1 / 1000)) speed
    rms_2HX := maxTie st.rms_2HX ((u16be f 118 : ℚ) * (1 / 1000)) speed
    rms_3HX := maxTie st.rms_3HX ((u16be f 120 : ℚ) * (1 / 1000)) speed
    rms_4HX := maxTie st.rms_4HX ((u16be f 122 : ℚ) * (1 / 1000)) speed
    max_1CX := maxTie st.max_1CX ((u16be f 124 : ℚ) * (1 / 1000)) speed
    max_2CX := maxTie st.max_2CX ((u16be f 126 : ℚ) * (1 / 1000)) speed
    max_3CX := maxTie st.max_3CX ((u16be f 128 : ℚ) * (1 / 1000)) speed
    max_4CX := maxTie st.max_4CX ((u16be f 130 : ℚ) * (1 / 1000)) speed
    rms_1CX := maxTie st.rms_1CX ((u16be f 132 : ℚ) * (1 / 1000)) speed
    rms_2CX := maxTie st.rms_2CX ((u16be f 134 : ℚ) * (1 / 1000)) speed
    rms_3CX := maxTie st.rms_3CX ((u16be f 136 : ℚ) * (1 / 1000)) speed
    rms_4CX := maxTie st.rms_4CX ((u16be f 138 : ℚ) * (1 / 1000)) speed }

/-- `BIDS_data_judge(framelist, time_offset)`: the 55-entry `variables`
list of the source, in source order. -/
def BIDS_data_judge (framelist : List (List Nat)) (t : Nat) : List Val :=
  let st := framelist.foldl (bidsStep t) initBIDS
  [ .num st.speed_max,
    st.sharedata_comm, st.sensor_check, st.sensor_realtime,
    st.offset_fault, st.bogie_warn, st.bogie_alarm,
    .num st.min_1HX.1, .num st.min_1HX.2,
    .num st.min_2HX.1, .num st.min_2HX.2,
    .num st.min_3HX.1, .num st.min_3HX.2,
    .num st.min_4HX.1, .num st.min_4HX.2,
    .num st.mean_1HX.1, .num st.mean_1HX.2,
    .num st.mean_2HX.1, .num st.mean_2HX.2,
    .num st.mean_3HX.1, .num st.mean_3HX.2,
    .num st.mean_4HX.1, .num st.mean_4HX.2,
    .num st.max_1HX.1, .num st.max_1HX.2,
    .num st.max_2HX.1, .num st.max_2HX.2,
    .num st.max_3HX.1, .num st.max_3HX.2,
    .num st.max_4HX.1, .num st.max_4HX.2,
    .num st.rms_1HX.1, .num st.rms_1HX.2,
    .num st.rms_2HX.1, .num st.rms_2HX.2,
    .num st.rms_3HX.1, .num st.rms_3HX.2,
    .num st.rms_4HX.1, .num st.rms_4HX.2,
    .num st.max_1CX.1, .num st.max_1CX.2,
    .num st.max_2CX.1, .num st.max_2CX.2,
    .num st.max_3CX.1, .num st.max_3CX.2,
    .num st.max_4CX.1, .num st.max_4CX.2,
    .num st.rms_1CX.1, .num st.rms_1CX.2,
    .num st.rms_2CX.1, .num st.rms_2CX.2,
    .num st.rms_3CX.1, .num st.rms_3CX.2,
    .num st.rms_4CX.1, .num st.rms_4CX.2 ]

/-! ## GVDS profile aggregation (`GVDS_data_judge`) -/

/-- Numeric reading of result slot `i` of a list-based accumulator. -/
def resGet (res : List Val) (i : Nat) : ℚ :=
  (res.getD i (.num 0)).toQ

/-- One max-with-speed-tiebreak update on slots `(vi, vi+1)` of a
list-based accumulator.  `cmpv` is the value compared against the slot,
`storev` the value written into the slot when the comparison wins; the
source writes the very value it compared except in two GVDS blocks
(source lines 977 and 1012), which store `frame[base + i * 2]` while
comparing `frame[base + i]`. -/
def tieAt (res : List Val) (vi : Nat) (cmpv storev s : ℚ) : List Val :=
  if cmpv > resGet res vi then
    (res.set vi (.num storev)).set (vi + 1) (.num s)
  else if cmpv = resGet res vi then
    (if s > resGet res (vi + 1) then res.set (vi + 1) (.num s) else res)
  else res

/-- Python truthiness of `frame[i1] or frame[i2] or ...` over byte cells. -/
def anyNonzero (f : List Nat) (idxs : List Nat) : Bool :=
  idxs.any (fun i => f.getD i 0 != 0)

/-- A `for i in range(4)` GVDS block over single bytes, comparing and
storing `frame[base + i]` at result slots `dj + i * 2`. -/
def gvdsByteBlock (f : List Nat) (speed : ℚ) (base dj : Nat) (res : List Val) : List Val :=
  (List.range 4).foldl
    (fun r i => tieAt r (dj + i * 2) (f.getD (base + i) 0 : ℚ) (f.getD (base + i) 0 : ℚ) speed)
    res

/-- The two GVDS byte blocks whose winning branch stores
`frame[base + i * 2]` although it compared `frame[base + i]`
(source: `res[63 + i * 2] = frame[176 + i * 2]`, likewise at 146). -/
def gvdsByteBlockShiftStore (f : List Nat) (speed : ℚ) (base dj : Nat) (res : List Val) : List Val :=
  (List.range 4).foldl
    (fun r i => tieAt r (dj + i * 2) (f.getD (base + i) 0 : ℚ) (f.getD (base + i * 2) 0 : ℚ) speed)
    res

/-- A `for i in range(4)` GVDS block over big-endian words scaled by 0.1,
at `frame[base + i*2 : base + i*2 + 2]` and result slots `dj + i * 2`. -/
def gvdsWordBlock (f : List Nat) (speed : ℚ) (base dj : Nat) (res : List Val) : List Val :=
  (List.range 4).foldl
    (fun r i => tieAt r (dj + i * 2)
      ((u16be f (base + i * 2) : ℚ) * (1 / 10)) ((u16be f (base + i * 2) : ℚ) * (1 / 10)) speed)
    res

/-- The GVDS sensor-voltage sweep: any of the 16 bytes at 286.. decoding
outside `[8, 14]` volts stamps slot 6 with this frame's time. -/
def gvdsVoltBlock (f : List Nat) (ft : Int) (res : List Val) : List Val :=
  (List.range 16).foldl
    (fun r i =>
      if (f.getD (286 + i) 0 : ℚ) * (1 / 10) < 8 ∨ (f.getD (286 + i) 0 : ℚ) * (1 / 10) > 14
      then r.set 6 (.time ft) else r)
    res

/-- One loop iteration of `GVDS_data_judge` (source lines 896-1115), in
source order: speed max, six event slots, then the 24 channel blocks. -/
def gvdsStep (t : Nat) (res : List Val) (f : List Nat) : List Val :=
  let ft := frameTime f t
  let speed := wndsSpeed f
  let r0 := if speed > resGet res 0 then res.set 0 (.num speed) else res
  let r1 := if f.getD 87 0 &&& 48 != 0 then r0.set 1 (.time ft) else r0
  let r2 := if f.getD 88 0 != 0 || f.getD 89 0 != 0 then r1.set 2 (.time ft) else r1
  let r3 := if anyNonzero f [218, 221, 232, 233, 234, 235, 238, 247, 248, 249, 250, 253]
            then r2.set 3 (.time ft) else r2
  let r4 := if anyNonzero f [219, 222, 224, 225, 226, 227, 236, 239, 240, 241, 242, 251]
            then r3.set 4 (.time ft) else r3
  let r5 := if anyNonzero f [220, 223, 228, 229, 230, 231, 237, 243, 244, 245, 246, 252]
            then r4.set 5 (.time ft) else r4
  let r6 := gvdsVoltBlock f ft r5
  let r7 := gvdsByteBlock f speed 92 7 r6
  let r8 := gvdsByteBlock f speed 104 15 r7
  let r9 := gvdsByteBlock f speed 116 23 r8
  let r10 := gvdsByteBlock f speed 128 31 r9
  let r11 := gvdsByteBlock f speed 140 39 r10
  let r12 := gvdsByteBlock f speed 152 47 r11
  let r13 := gvdsByteBlock f speed 164 55 r12
  let r14 := gvdsByteBlockShiftStore f speed 176 63 r13
  let r15 := gvdsByteBlock f speed 98 71 r14
  let r16 := gvdsByteBlock f speed 110 79 r15
  let r17 := gvdsByteBlock f speed 122 87 r16
  let r18 := gvdsByteBlock f speed 134 95 r17
  let r19 := gvdsByteBlockShiftStore f speed 146 103 r18
  let r20 := gvdsByteBlock f speed 158 111 r19
  let r21 := gvdsByteBlock f speed 170 119 r20
  let r22 := gvdsByteBlock f speed 182 127 r21
  let r23 := gvdsWordBlock f speed 186 135 r22
  let r24 := gvdsWordBlock f speed 202 143 r23
  let r25 := gvdsWordBlock f speed 194 151 r24
  let r26 := gvdsWordBlock f speed 210 159 r25
  let r27 := gvdsWordBlock f speed 254 167 r26
  let r28 := gvdsWordBlock f speed 270 175 r27
  let r29 := gvdsWordBlock f speed 262 183 r28
  gvdsWordBlock f speed 278 191 r29

/-- `GVDS_data_judge(framelist, time_offset)`: fold of `gvdsStep` over a
`[0] * 199` result list. -/
def GVDS_data_judge (framelist : List (List Nat)) (t : Nat) : List Val :=
  framelist.foldl (gvdsStep t) (List.replicate 199 (.num 0))

/-! ## MVDS profile aggregation (`MVDS_data_judge`)

The source rounds MVDS speeds and word values with `round(x, 3)`; the
decoded values `n * 0.01` and `n * 0.1` already have at most three
decimal places, so the rounding is the identity on the modelled `ℚ`
values and is not repeated here. -/

/-- The MVDS sensor-voltage sweep over 8 bytes at 184... -/
def mvdsVoltBlock (f : List Nat) (ft : Int) (res : List Val) : List Val :=
  (List.range 8).foldl
    (fun r i =>
      if (f.getD (184 + i) 0 : ℚ) * (1 / 10) < 8 ∨ (f.getD (184 + i) 0 : ℚ) * (1 / 10) > 14
      then r.set 6 (.time ft) else r)
    res

/-- The `for i in range(48)` MVDS loop (source lines 1155-1174): every
`i % 6 == 1` is skipped; even groups (`(i // 6) % 2 == 0`) update at the
running `chuandong_cnt` (init 7), odd groups at `nochuandong_cnt`
(init 47), each advancing its own counter by 2.  State is
`(res, chuandong_cnt, nochuandong_cnt)`. -/
def mvdsZhibiaoLoop (f : List Nat) (speed : ℚ) (st : List Val × Nat × Nat) :
    List Val × Nat × Nat :=
  (List.range 48).foldl
    (fun st i =>
      if i % 6 = 1 then st
      else
        let zhibiao : ℚ := (f.getD (89 + i) 0 : ℚ)
        if (i / 6) % 2 = 0 then
          (tieAt st.1 st.2.1 zhibiao zhibiao speed, st.2.1 + 2, st.2.2)
        else
          (tieAt st.1 st.2.2 zhibiao zhibiao speed, st.2.1, st.2.2 + 2))
    st

/-- The first `for i in range(8)` MVDS word loop (source lines 1177-1194)
over words at `152 + i * 2`, alternating between the counters
(init 87 and 95). -/
def mvdsWordLoopA (f : List Nat) (speed : ℚ) (st : List Val × Nat × Nat) :
    List Val × Nat × Nat :=
  (List.range 8).foldl
    (fun st i =>
      let val : ℚ := (u16be f (152 + i * 2) : ℚ) * (1 / 10)
      if i % 2 = 0 then
        (tieAt st.1 st.2.1 val val speed, st.2.1 + 2, st.2.2)
      else
        (tieAt st.1 st.2.2 val val speed, st.2.1, st.2.2 + 2))
    st

/-- The second `for i in range(8)` MVDS word loop (source lines
1199-1217): the byte cursor `bype_cnt` (init 168) is itself loop state,
advanced by 2 every iteration; counters init 103 and 111.  State is
`(res, chuandong_cnt, nochuandong_cnt, bype_cnt)`. -/
def mvdsWordLoopB (f : List Nat) (speed : ℚ) (st : List Val × Nat × Nat × Nat) :
    List Val × Nat × Nat × Nat :=
  (List.range 8).foldl
    (fun st i =>
      let val : ℚ := (u16be f st.2.2.2 : ℚ) * (1 / 10)
      if i % 2 = 0 then
        (tieAt st.1 st.2.1 val val speed, st.2.1 + 2, st.2.2.1, st.2.2.2 + 2)
      else
        (tieAt st.1 st.2.2.1 val val speed, st.2.1, st.2.2.1 + 2, st.2.2.2 + 2))
    st

/-- One loop iteration of `MVDS_data_judge` (source lines 1128-1217). -/
def mvdsStep (t : Nat) (res : List Val) (f : List Nat) : List Val :=
  let ft := frameTime f t
  let speed := wndsSpeed f
  let r0 := if speed > resGet res 0 then res.set 0 (.num speed) else res
  let r1 := if f.getD 87 0 &&& 48 != 0 then r0.set 1 (.time ft) else r0
  let r2 := if f.getD 88 0 != 0 then r1.set 2 (.time ft) else r1
  let r3 := if anyNonzero f [137, 148, 149, 150, 151] then r2.set 3 (.time ft) else r2
  let r4 := if anyNonzero f [138, 140, 141, 142, 143] then r3.set 4 (.time ft) else r3
  let r5 := if anyNonzero f [139, 144, 145, 146, 147] then r4.set 5 (.time ft) else r4
  let r6 := mvdsVoltBlock f ft r5
  let r7 := (mvdsZhibiaoLoop f speed (r6, 7, 47)).1
  let r8 := (mvdsWordLoopA f speed (r7, 87, 95)).1
  (mvdsWordLoopB f speed (r8, 103, 111, 168)).1

/-- `MVDS_data_judge(framelist, time_offset)`: fold of `mvdsStep` over a
`[0] * 119` result list. -/
def MVDS_data_judge (framelist : List (List Nat)) (t : Nat) : List Val :=
  framelist.foldl (mvdsStep t) (List.replicate 119 (.num 0))

/-! ## Frame stream reader (`read_binary_file`)

The byte source is a `List Nat`; the file cursor is the remaining
suffix `rem` (reading `frame_size` bytes at position `p` is
`rem.take frame_size`, seeking to the next slot is `rem.drop frame_size`).
`p` tracks the absolute position only for the error log, whose entries
are modelled as `(frame_count, error_offset)` pairs with
`error_offset = frame_start - 16` exactly as the source computes it
(the reason string is not modelled). -/

/-- The `while True` scan loop of `read_binary_file` (source lines
164-206), as a structural recursion over a fuel bound on the iteration
count (each iteration consumes at least one byte of `rem`, so any fuel
above `rem.length` is never exhausted; `readLoop` below supplies it and
`readLoopF_fuel` shows the result does not depend on it).  One step:
read a slot, stop on an empty read, log-and-skip on a length, decode or
sanity failure, window-filter otherwise. -/
def readLoopF : Nat → List Nat → Nat → Int → Int → Nat → Nat → Nat →
    List (List Nat) × List (Nat × Int)
  | 0, _, _, _, _, _, _, _ => ([], [])
  | fuel + 1, rem, t, s, e, fs, p, c =>
    let frame_data := rem.take fs
    if frame_data = [] then ([], [])
    else if frame_data.length ≠ fs then
      let rest := readLoopF fuel (rem.drop fs) t s e fs (p + fs) c
      (rest.1, (c, (p : Int) - 16) :: rest.2)
    else
      match extract_frame_time frame_data t with
      | .error _ =>
        let rest := readLoopF fuel (rem.drop fs) t s e fs (p + fs) c
        (rest.1, (c, (p : Int) - 16) :: rest.2)
      | .ok ts =>
        if ts < 0 ∨ yearOfEpoch ts < 2000 ∨ yearOfEpoch ts > 2100 then
          let rest := readLoopF fuel (rem.drop fs) t s e fs (p + fs) c
          (rest.1, (c, (p : Int) - 16) :: rest.2)
        else
          let rest := readLoopF fuel (rem.drop fs) t s e fs (p + fs) (c + 1)
          (if s ≤ ts ∧ ts ≤ e then frame_data :: rest.1 else rest.1, rest.2)

/-- The scan from the current position: unread suffix `rem`, absolute
position `p` (for the error log), successful-frame count `c`. -/
def readLoop (rem : List Nat) (t : Nat) (s e : Int) (fs : Nat) (p c : Nat) :
    List (List Nat) × List (Nat × Int) :=
  readLoopF (rem.length + 1) rem t s e fs p c

/-- `read_binary_file(file, frame_offset, time_offset, start, end,
frame_size)` with the start/end instants already as epoch seconds (the
source parses them from strings, which is external glue): seek to
`frame_offset`, scan, return `(results, error_log)`. -/
def read_binary_file (data : List Nat) (frame_offset t : Nat) (s e : Int)
    (fs : Nat) : List (List Nat) × List (Nat × Int) :=
  readLoop (data.drop frame_offset) t s e fs frame_offset 0

/-- The sequence of frame-size slots of the remaining byte source, in
stream order (the last one possibly short), with the same fuel device. -/
def slotListF : Nat → List Nat → Nat → List (List Nat)
  | 0, _, _ => []
  | fuel + 1, rem, fs =>
    if rem.take fs = [] then []
    else rem.take fs :: slotListF fuel (rem.drop fs) fs

/-- The slots of the remaining byte source. -/
def slotList (rem : List Nat) (fs : Nat) : List (List Nat) :=
  slotListF (rem.length + 1) rem fs

/-- A full slot on which the scan records a frame-level error: the
timestamp fails to decode, or fails the sanity checks (negative epoch or
year outside `[2000, 2100]`). -/
def slotBad (fd : List Nat) (t : Nat) : Prop :=
  match extract_frame_time fd t with
  | .error _ => True
  | .ok ts => ts < 0 ∨ yearOfEpoch ts < 2000 ∨ yearOfEpoch ts > 2100

instance (fd : List Nat) (t : Nat) : Decidable (slotBad fd t) := by
  unfold slotBad
  exact match extract_frame_time fd t with
  | .error _ => inferInstanceAs (Decidable True)
  | .ok _ => inferInstanceAs (Decidable (_ ∨ _ ∨ _))

/-- A slot the scan decodes successfully and emits: timestamp decodes,
passes the sanity checks, and lies inside the window. -/
def slotGood (fd : List Nat) (t : Nat) (s e : Int) : Prop :=
  ∃ ts, extract_frame_time fd t = .ok ts ∧ 0 ≤ ts ∧
    2000 ≤ yearOfEpoch ts ∧ yearOfEpoch ts ≤ 2100 ∧ s ≤ ts ∧ ts ≤ e

/-- A slot the scan decodes successfully (timestamp decodes and passes
the sanity checks) whose timestamp falls outside the `[start, end]`
window. -/
def slotOutOfWindow (fd : List Nat) (t : Nat) (s e : Int) : Prop :=
  ∃ ts, extract_frame_time fd t = .ok ts ∧ 0 ≤ ts ∧
    2000 ≤ yearOfEpoch ts ∧ yearOfEpoch ts ≤ 2100 ∧ ¬(s ≤ ts ∧ ts ≤ e)

/-! ## Run dispatch (`DataCheck.data_process`) -/

/-- The four named device profiles of the configuration (the source
dispatches on the configured `obj1` string; any other name is skipped). -/
inductive Profile where
  | WNDS
  | BIDS
  | GVDS
  | MVDS
  | unknown
deriving DecidableEq

/-- Outcome of processing one merged data file inside
`DataCheck.data_process` (source lines 1258-1274). -/
inductive RunOutcome where
  | emptyData
  | skipped
  | result (v : List Val)
deriving DecidableEq

/-- The per-file body of `DataCheck.data_process`: run the reader; if the
frame list is empty, log the empty-window message and `continue` without
aggregating; otherwise invoke the profile's data-judge function. -/
def data_process_one (profile : Profile) (data : List Nat)
    (frame_offset t : Nat) (s e : Int) (fs : Nat) : RunOutcome :=
  let frame_data := (read_binary_file data frame_offset t s e fs).1
  if frame_data.isEmpty then .emptyData
  else
    match profile with
    | .WNDS => .result (WNDS_data_judge frame_data t)
    | .BIDS => .result (BIDS_data_judge frame_data t)
    | .GVDS => .result (GVDS_data_judge frame_data t)
    | .MVDS => .result (MVDS_data_judge frame_data t)
    | .unknown => .skipped

/-! ## Concrete frames -/

/-- A 255-byte frame whose time bytes at offset 23 are `(25,3,15,10,30,0)`,
the spec's example instant 2025-03-15 10:30:00. -/
def exFrame : List Nat :=
  ((((((List.replicate 255 0).set 23 25).set 24 3).set 25 15).set 26 10).set 27 30)

/-- A 255-byte frame with an invalid month byte 13. -/
def badMonthFrame : List Nat :=
  (((List.replicate 255 0).set 23 25).set 24 13).set 25 1

/-- A 255-byte frame with valid time bytes `(25,1,1,0,0,0)` (2025-01-01). -/
def gf255 : List Nat :=
  (((List.replicate 255 0).set 23 25).set 24 1).set 25 1

/-- A 302-byte GVDS-sized frame with valid time bytes `(25,1,1,0,0,0)` at
offset 23 and byte 177 equal to 7 (all other bytes zero). -/
def gf302 : List Nat :=
  ((((List.replicate 302 0).set 23 25).set 24 1).set 25 1).set 177 7

/-! ## Spec-side reducers used in the claims -/

/-- The value of an event-timestamp channel as the specification states
it: the formatted time of the last frame (in stream order) satisfying the
condition, or the integer-zero sentinel. -/
def lastEventTime (cond : List Nat → Bool) (t : Nat) (fl : List (List Nat)) : Val :=
  match (fl.filter cond).getLast? with
  | some f => .time (frameTime f t)
  | none => .num 0

/-- The three-key lexicographic step as the claim states it, on
`(amplitude, frequency, speed)` triples. -/
def specMaxAFS (acc x : ℚ × ℚ × ℚ) : ℚ × ℚ × ℚ :=
  if x.1 > acc.1 then x
  else if x.1 = acc.1 ∧ x.2.1 > acc.2.1 then (acc.1, x.2.1, x.2.2)
  else if x.1 = acc.1 ∧ x.2.1 = acc.2.1 ∧ x.2.2 > acc.2.2 then (acc.1, acc.2.1, x.2.2)
  else acc

/-- Decoded `(amplitude, frequency, speed)` triple of the first WNDS
main-frequency channel. -/
def wndsAFS1 (f : List Nat) : ℚ × ℚ × ℚ :=
  ((f.getD 99 0 : ℚ) * (1 / 1000), (u16be f 101 : ℚ) * (1 / 10), wndsSpeed f)

/-- Decoded `(amplitude, frequency, speed)` triple of the second WNDS
main-frequency channel. -/
def wndsAFS2 (f : List Nat) : ℚ × ℚ × ℚ :=
  ((f.getD 100 0 : ℚ) * (1 / 1000), (u16be f 103 : ℚ) * (1 / 10), wndsSpeed f)

/-! ## Lemmas -/

/-- Any two sufficient fuels yield the same scan. -/
theorem readLoopF_congr (f1 : Nat) : ∀ (f2 : Nat) (rem : List Nat) (t : Nat)
    (s e : Int) (fs p c : Nat), rem.length < f1 → rem.length < f2 →
    readLoopF f1 rem t s e fs p c = readLoopF f2 rem t s e fs p c := by
  induction f1 with
  | zero => intro f2 rem t s e fs p c h1 _; omega
  | succ n ih =>
    intro f2 rem t s e fs p c h1 h2
    obtain ⟨m, rfl⟩ : ∃ m, f2 = m + 1 := ⟨f2 - 1, by omega⟩
    by_cases h0 : rem.take fs = []
    · simp [readLoopF, h0]
    · have hfs : fs ≠ 0 := by rintro rfl; simp at h0
      have hrem : rem ≠ [] := by rintro rfl; simp at h0
      have hpos : 0 < rem.length := List.length_pos.mpr hrem
      have hlt : (rem.drop fs).length < n := by
        simp only [List.length_drop]; omega
      have hltm : (rem.drop fs).length < m := by
        simp only [List.length_drop]; omega
      simp only [readLoopF, if_neg h0]
      by_cases hl : (rem.take fs).length ≠ fs
      · simp only [if_pos hl, ih m _ t s e fs _ _ hlt hltm]
      · simp only [if_neg hl]
        cases hx : extract_frame_time (rem.take fs) t with
        | error u => simp only [ih m _ t s e fs _ _ hlt hltm]
        | ok ts =>
          by_cases hy : ts < 0 ∨ yearOfEpoch ts < 2000 ∨ yearOfEpoch ts > 2100
          · simp only [if_pos hy, ih m _ t s e fs _ _ hlt hltm]
          · simp only [if_neg hy, ih m _ t s e fs _ _ hlt hltm]

/-- Any fuel above the number of unread bytes gives the scan itself. -/
theorem readLoopF_fuel (fuel : Nat) (rem : List Nat) (t : Nat) (s e : Int)
    (fs : Nat) (p c : Nat) (h : rem.length < fuel) :
    readLoopF fuel rem t s e fs p c = readLoop rem t s e fs p c :=
  readLoopF_congr fuel (rem.length + 1) rem t s e fs p c h (by omega)

/-- The one-step unfolding of the scan, with the recursive occurrences
expressed through `readLoop` itself. -/
theorem readLoop_eq (rem : List Nat) (t : Nat) (s e : Int) (fs p c : Nat) :
    readLoop rem t s e fs p c =
      if rem.take fs = [] then ([], [])
      else if (rem.take fs).length ≠ fs then
        ((readLoop (rem.drop fs) t s e fs (p + fs) c).1,
         (c, (p : Int) - 16) :: (readLoop (rem.drop fs) t s e fs (p + fs) c).2)
      else
        match extract_frame_time (rem.take fs) t with
        | .error _ =>
          ((readLoop (rem.drop fs) t s e fs (p + fs) c).1,
           (c, (p : Int) - 16) :: (readLoop (rem.drop fs) t s e fs (p + fs) c).2)
        | .ok ts =>
          if ts < 0 ∨ yearOfEpoch ts < 2000 ∨ yearOfEpoch ts > 2100 then
            ((readLoop (rem.drop fs) t s e fs (p + fs) c).1,
             (c, (p : Int) - 16) :: (readLoop (rem.drop fs) t s e fs (p + fs) c).2)
          else
            (if s ≤ ts ∧ ts ≤ e
             then rem.take fs :: (readLoop (rem.drop fs) t s e fs (p + fs) (c + 1)).1
             else (readLoop (rem.drop fs) t s e fs (p + fs) (c + 1)).1,
             (readLoop (rem.drop fs) t s e fs (p + fs) (c + 1)).2) := by
  by_cases h0 : rem.take fs = []
  · simp [readLoop, readLoopF, h0]
  · have hfs : fs ≠ 0 := by rintro rfl; simp at h0
    have hrem : rem ≠ [] := by rintro rfl; simp at h0
    have hpos : 0 < rem.length := List.length_pos.mpr hrem
    have hlt : (rem.drop fs).length < rem.length := by
      simp only [List.length_drop]; omega
    show readLoopF (rem.length + 1) rem t s e fs p c = _
    simp only [readLoopF, if_neg h0]
    rw [readLoopF_congr rem.length ((rem.drop fs).length + 1) _ t s e fs (p + fs) c hlt (by omega),
        readLoopF_congr rem.length ((rem.drop fs).length + 1) _ t s e fs (p + fs) (c + 1) hlt (by omega)]
    rfl

/-- Any two sufficient fuels list the same slots. -/
theorem slotListF_congr (f1 : Nat) : ∀ (f2 : Nat) (rem : List Nat) (fs : Nat),
    rem.length < f1 → rem.length < f2 → slotListF f1 rem fs = slotListF f2 rem fs := by
  induction f1 with
  | zero => intro f2 rem fs h1 _; omega
  | succ n ih =>
    intro f2 rem fs h1 h2
    obtain ⟨m, rfl⟩ : ∃ m, f2 = m + 1 := ⟨f2 - 1, by omega⟩
    by_cases h0 : rem.take fs = []
    · simp [slotListF, h0]
    · have hfs : fs ≠ 0 := by rintro rfl; simp at h0
      have hrem : rem ≠ [] := by rintro rfl; simp at h0
      have hpos : 0 < rem.length := List.length_pos.mpr hrem
      have hlt : (rem.drop fs).length < n := by
        simp only [List.length_drop]; omega
      have hltm : (rem.drop fs).length < m := by
        simp only [List.length_drop]; omega
      simp only [slotListF, if_neg h0, ih m _ fs hlt hltm]

/-- The one-step unfolding of `slotList`. -/
theorem slotList_eq (rem : List Nat) (fs : Nat) :
    slotList rem fs =
      if rem.take fs = [] then []
      else rem.take fs :: slotList (rem.drop fs) fs := by
  by_cases h0 : rem.take fs = []
  · simp [slotList, slotListF, h0]
  · have hfs : fs ≠ 0 := by rintro rfl; simp at h0
    have hrem : rem ≠ [] := by rintro rfl; simp at h0
    have hpos : 0 < rem.length := List.length_pos.mpr hrem
    have hlt : (rem.drop fs).length < rem.length := by
      simp only [List.length_drop]; omega
    show slotListF (rem.length + 1) rem fs = _
    simp only [slotListF, if_neg h0]
    rw [slotListF_congr rem.length ((rem.drop fs).length + 1) _ fs hlt (by omega)]
    rfl

/-! ## Generic fold helpers -/

/-- Projection of a left fold along a componentwise-commuting map. -/
theorem foldl_proj {σ α β : Type} (proj : σ → α) (g : σ → β → σ) (g2 : α → β → α)
    (h : ∀ st b, proj (g st b) = g2 (proj st) b) :
    ∀ (l : List β) (st : σ), proj (l.foldl g st) = l.foldl g2 (proj st) := by
  intro l
  induction l with
  | nil => intro st; rfl
  | cons b l ih =>
    intro st
    simp only [List.foldl_cons, ih, h]

/-- Left folds preserve any invariant the step preserves. -/
theorem foldl_inv {σ β : Type} (P : σ → Prop) (g : σ → β → σ)
    (h : ∀ st b, P st → P (g st b)) :
    ∀ (l : List β) (st : σ), P st → P (l.foldl g st) := by
  intro l
  induction l with
  | nil => intro st hs; exact hs
  | cons b l ih =>
    intro st hs
    exact ih (g st b) (h st b hs)

/-! ## Length of the list-based accumulators -/

@[simp] theorem tieAt_length (res : List Val) (vi : Nat) (cmpv storev s : ℚ) :
    (tieAt res vi cmpv storev s).length = res.length := by
  unfold tieAt
  split_ifs <;> simp

@[simp] theorem length_set_ite {c : Prop} [Decidable c] (r : List Val) (i : Nat) (v : Val) :
    (if c then r.set i v else r).length = r.length := by
  split <;> simp

@[simp] theorem length_ite_set {c : Prop} [Decidable c] (r : List Val) (i : Nat) (v : Val) :
    (if c then r else r.set i v).length = r.length := by
  split <;> simp

@[simp] theorem gvdsByteBlock_length (f : List Nat) (sp : ℚ) (base dj : Nat) (res : List Val) :
    (gvdsByteBlock f sp base dj res).length = res.length :=
  foldl_inv (fun r => r.length = res.length) _
    (fun r i hr => by simpa using hr) (List.range 4) res rfl

@[simp] theorem gvdsByteBlockShiftStore_length (f : List Nat) (sp : ℚ) (base dj : Nat)
    (res : List Val) : (gvdsByteBlockShiftStore f sp base dj res).length = res.length :=
  foldl_inv (fun r => r.length = res.length) _
    (fun r i hr => by simpa using hr) (List.range 4) res rfl

@[simp] theorem gvdsWordBlock_length (f : List Nat) (sp : ℚ) (base dj : Nat) (res : List Val) :
    (gvdsWordBlock f sp base dj res).length = res.length :=
  foldl_inv (fun r => r.length = res.length) _
    (fun r i hr => by simpa using hr) (List.range 4) res rfl

@[simp] theorem gvdsVoltBlock_length (f : List Nat) (ft : Int) (res : List Val) :
    (gvdsVoltBlock f ft res).length = res.length :=
  foldl_inv (fun r => r.length = res.length) _
    (fun r i hr => by simpa using hr) (List.range 16) res rfl

theorem gvdsStep_length (t : Nat) (res : List Val) (f : List Nat) :
    (gvdsStep t res f).length = res.length := by
  simp [gvdsStep]

@[simp] theorem mvdsVoltBlock_length (f : List Nat) (ft : Int) (res : List Val) :
    (mvdsVoltBlock f ft res).length = res.length :=
  foldl_inv (fun r => r.length = res.length) _
    (fun r i hr => by simpa using hr) (List.range 8) res rfl

@[simp] theorem mvdsZhibiaoLoop_length (f : List Nat) (sp : ℚ) (st : List Val × Nat × Nat) :
    ((mvdsZhibiaoLoop f sp st).1).length = st.1.length :=
  foldl_inv (fun x => x.1.length = st.1.length) _
    (fun x i hx => by
      dsimp only
      split_ifs <;> simpa using hx) (List.range 48) st rfl

@[simp] theorem mvdsWordLoopA_length (f : List Nat) (sp : ℚ) (st : List Val × Nat × Nat) :
    ((mvdsWordLoopA f sp st).1).length = st.1.length :=
  foldl_inv (fun x => x.1.length = st.1.length) _
    (fun x i hx => by
      dsimp only
      split_ifs <;> simpa using hx) (List.range 8) st rfl

@[simp] theorem mvdsWordLoopB_length (f : List Nat) (sp : ℚ) (st : List Val × Nat × Nat × Nat) :
    ((mvdsWordLoopB f sp st).1).length = st.1.length :=
  foldl_inv (fun x => x.1.length = st.1.length) _
    (fun x i hx => by
      dsimp only
      split_ifs <;> simpa using hx) (List.range 8) st rfl

theorem mvdsStep_length (t : Nat) (res : List Val) (f : List Nat) :
    (mvdsStep t res f).length = res.length := by
  simp [mvdsStep]

/-! ## Claims about the frame codec -/

/-- Claim C4: the timestamp decoder reads the six bytes at `time_offset`
as `2000+year, month, day, hour, minute, second`; it errors exactly when
`time_offset+6 > len(frame)`, or the bytes are not a valid calendar
date/time, or `len(frame) < 255`; otherwise it returns the epoch seconds
of that wall-clock instant in the fixed convention.  On a frame with
bytes `(25,3,15,10,30,0)` at offset 23 it yields 1742034600, the Unix
timestamp of 2025-03-15 10:30:00; an invalid month byte 13 errors. -/
theorem claim_C4 :
    (∀ (frame : List Nat) (t : Nat),
      (∃ ts, extract_frame_time frame t = Except.ok ts) ↔
        ¬(frame.length < 255 ∨ frame.length < t + 6 ∨
          validDate (2000 + frame.getD t 0) (frame.getD (t + 1) 0) (frame.getD (t + 2) 0)
            (frame.getD (t + 3) 0) (frame.getD (t + 4) 0) (frame.getD (t + 5) 0) = false)) ∧
    (∀ (frame : List Nat) (t : Nat) (ts : Int), extract_frame_time frame t = Except.ok ts →
      ts = unixEpoch (2000 + frame.getD t 0) (frame.getD (t + 1) 0) (frame.getD (t + 2) 0)
             (frame.getD (t + 3) 0) (frame.getD (t + 4) 0) (frame.getD (t + 5) 0)) ∧
    extract_frame_time exFrame 23 = Except.ok 1742034600 ∧
    extract_frame_time badMonthFrame 23 = Except.error () := by
  refine ⟨?_, ?_, by decide, by decide⟩
  · intro frame t
    unfold extract_frame_time
    split_ifs with h1 h2
    · simp [h1]
    · simp [h1, h2]
    · dsimp only
      split_ifs with h3 <;> simp [h1, h2, h3] <;> simpa [List.getD] using h3
  · intro frame t ts h
    unfold extract_frame_time at h
    by_cases h1 : frame.length < 255
    · rw [if_pos h1] at h
      exact absurd h (by simp)
    rw [if_neg h1] at h
    by_cases h2 : frame.length < t + 6
    · rw [if_pos h2] at h
      exact absurd h (by simp)
    rw [if_neg h2] at h
    dsimp only at h
    by_cases h3 : validDate (2000 + frame.getD t 0) (frame.getD (t + 1) 0)
        (frame.getD (t + 2) 0) (frame.getD (t + 3) 0) (frame.getD (t + 4) 0)
        (frame.getD (t + 5) 0) = true
    · rw [if_pos h3] at h
      injection h with h4
      exact h4.symm
    · rw [if_neg h3] at h
      exact absurd h (by simp)

/-! ## Claims about the WNDS aggregation channels -/

/-- The source's nested-if block and the claim's three-rule description
agree pointwise. -/
theorem maxAFS_eq_spec (acc : ℚ × ℚ × ℚ) (amp fre s : ℚ) :
    maxAFS acc amp fre s = specMaxAFS acc (amp, fre, s) := by
  unfold maxAFS specMaxAFS
  dsimp only
  split_ifs <;> simp_all

/-- Claim C2: the two main-frequency-amplitude channels are a three-key
lexicographic maximization over `(amplitude, frequency, speed)` exactly
as described: strictly larger amplitude replaces all three; equal
amplitude with larger frequency replaces frequency and speed; equal
amplitude and frequency with larger speed replaces speed only.  Over
`(5,20,60), (5,25,40), (5,25,70)` the result is `(5,25,70)`. -/
theorem claim_C2 :
    (∀ (framelist : List (List Nat)) (t : Nat),
      (wndsState framelist t).main_fre_amp_1CX =
        framelist.foldl (fun acc f => specMaxAFS acc (wndsAFS1 f)) (0, 0, 0) ∧
      (wndsState framelist t).main_fre_amp_2CX =
        framelist.foldl (fun acc f => specMaxAFS acc (wndsAFS2 f)) (0, 0, 0)) ∧
    [((5 : ℚ), (20 : ℚ), (60 : ℚ)), (5, 25, 40), (5, 25, 70)].foldl specMaxAFS (0, 0, 0) =
      (5, 25, 70) := by
  refine ⟨?_, by decide⟩
  intro fl t
  constructor
  · have hp := foldl_proj WNDSState.main_fre_amp_1CX (wndsStep t)
      (fun acc f => maxAFS acc ((f.getD 99 0 : ℚ) * (1 / 1000))
        ((u16be f 101 : ℚ) * (1 / 10)) (wndsSpeed f))
      (fun st f => rfl) fl initWNDS
    have hfun : (fun (acc : ℚ × ℚ × ℚ) (f : List Nat) =>
        maxAFS acc ((f.getD 99 0 : ℚ) * (1 / 1000)) ((u16be f 101 : ℚ) * (1 / 10)) (wndsSpeed f))
        = fun acc f => specMaxAFS acc (wndsAFS1 f) := by
      funext acc f
      rw [maxAFS_eq_spec]
      rfl
    unfold wndsState
    rw [hp, hfun]
    rfl
  · have hp := foldl_proj WNDSState.main_fre_amp_2CX (wndsStep t)
      (fun acc f => maxAFS acc ((f.getD 100 0 : ℚ) * (1 / 1000))
        ((u16be f 103 : ℚ) * (1 / 10)) (wndsSpeed f))
      (fun st f => rfl) fl initWNDS
    have hfun : (fun (acc : ℚ × ℚ × ℚ) (f : List Nat) =>
        maxAFS acc ((f.getD 100 0 : ℚ) * (1 / 1000)) ((u16be f 103 : ℚ) * (1 / 10)) (wndsSpeed f))
        = fun acc f => specMaxAFS acc (wndsAFS2 f) := by
      funext acc f
      rw [maxAFS_eq_spec]
      rfl
    unfold wndsState
    rw [hp, hfun]
    rfl

/-- A fold of conditional-overwrite steps yields the time of the last
frame satisfying the condition, else the initial value. -/
theorem foldl_evUpd (cond : List Nat → Bool) (tm : List Nat → Int) :
    ∀ (fl : List (List Nat)) (init : Val),
      fl.foldl (fun a f => evUpd a (cond f) (tm f)) init =
        (match (fl.filter cond).getLast? with
         | some f => Val.time (tm f)
         | none => init) := by
  intro fl
  induction fl using List.reverseRecOn with
  | nil => intro init; rfl
  | append_singleton l f ih =>
    intro init
    rw [List.foldl_append]
    simp only [List.foldl_cons, List.foldl_nil]
    by_cases hc : cond f
    · have h1 : List.filter cond [f] = [f] := by simp [hc]
      rw [List.filter_append, h1, List.getLast?_concat]
      simp only [evUpd]
      rw [if_pos hc]
    · have h1 : List.filter cond [f] = [] := by simp [hc]
      rw [List.filter_append, h1, List.append_nil]
      simp only [evUpd]
      rw [if_neg hc]
      exact ih init

/-- Claim C3: every WNDS event-timestamp channel's output after the run
is the formatted timestamp of the last frame (in stream order) whose
configured status bits were set, and the integer-zero sentinel if no
frame satisfied the condition (all eleven status channels, with the
masks of source lines 332-353). -/
theorem claim_C3 (fl : List (List Nat)) (t : Nat) :
    (wndsState fl t).sharedata_comm =
      lastEventTime (fun f => f.getD 87 0 &&& 16 != 0 || f.getD 87 0 &&& 32 != 0) t fl ∧
    (wndsState fl t).sensor_check =
      lastEventTime (fun f => f.getD 90 0 &&& 1 != 0 || f.getD 90 0 &&& 2 != 0) t fl ∧
    (wndsState fl t).sensor_realtime =
      lastEventTime (fun f => f.getD 90 0 &&& 4 != 0 || f.getD 90 0 &&& 8 != 0) t fl ∧
    (wndsState fl t).stable_HX_warn =
      lastEventTime (fun f => f.getD 88 0 &&& 1 != 0) t fl ∧
    (wndsState fl t).stable_HX_alarm =
      lastEventTime (fun f => f.getD 88 0 &&& 16 != 0) t fl ∧
    (wndsState fl t).stable_CX_warn =
      lastEventTime (fun f => f.getD 88 0 &&& 2 != 0) t fl ∧
    (wndsState fl t).stable_CX_alarm =
      lastEventTime (fun f => f.getD 88 0 &&& 32 != 0) t fl ∧
    (wndsState fl t).douche_warn =
      lastEventTime (fun f => f.getD 89 0 &&& 2 != 0) t fl ∧
    (wndsState fl t).douche_alarm =
      lastEventTime (fun f => f.getD 89 0 &&& 32 != 0) t fl ∧
    (wndsState fl t).shake_warn =
      lastEventTime (fun f => f.getD 89 0 &&& 1 != 0) t fl ∧
    (wndsState fl t).shake_alarm =
      lastEventTime (fun f => f.getD 89 0 &&& 16 != 0) t fl := by
  refine ⟨?_, ?_, ?_, ?_, ?_, ?_, ?_, ?_, ?_, ?_, ?_⟩ <;>
    exact (foldl_proj _ (wndsStep t) _ (fun st f => rfl) fl initWNDS).trans
      (foldl_evUpd _ _ fl (Val.num 0))

/-- A tie-break step whose value argument equals the held best `0` turns
the accumulator's speed into a running maximum. -/
theorem maxTie_zero (sp s : ℚ) : maxTie (0, sp) 0 s = (0, max sp s) := by
  unfold maxTie
  norm_num
  rcases le_or_lt s sp with h | h
  · rw [if_neg (not_lt.mpr h), max_eq_left h]
  · rw [if_pos h, max_eq_right h.le]

/-- Bounds and attainment for a left fold of `max`. -/
theorem foldl_max_facts : ∀ (l : List ℚ) (a : ℚ),
    a ≤ l.foldl max a ∧ (∀ x ∈ l, x ≤ l.foldl max a) ∧
    (l.foldl max a = a ∨ l.foldl max a ∈ l) := by
  intro l
  induction l with
  | nil => intro a; exact ⟨le_rfl, by simp, Or.inl rfl⟩
  | cons x l ih =>
    intro a
    obtain ⟨h1, h2, h3⟩ := ih (max a x)
    refine ⟨le_trans (le_max_left a x) h1, ?_, ?_⟩
    · intro y hy
      rcases List.mem_cons.mp hy with rfl | hy2
      · exact le_trans (le_max_right a _) h1
      · exact h2 y hy2
    · rcases h3 with h | h
      · rcases max_choice a x with hm | hm
        · exact Or.inl (by rw [List.foldl_cons, h, hm])
        · exact Or.inr (by rw [List.foldl_cons, h, hm]; exact List.mem_cons_self x l)
      · exact Or.inr (List.mem_cons_of_mem x h)

/-- Claim C10: on a non-empty frame list where the `stable_1HX` channel's
raw field is 0 in every frame, the accumulator stays at best value 0 but,
through the equality branch against the `(0, 0)` initialization, its
associated speed climbs to the maximum frame speed of the whole list. -/
theorem claim_C10 (fl : List (List Nat)) (t : Nat) (hne : fl ≠ [])
    (hz : ∀ f ∈ fl, u16be f 105 = 0) :
    (wndsState fl t).stable_1HX.1 = 0 ∧
    (∀ f ∈ fl, wndsSpeed f ≤ (wndsState fl t).stable_1HX.2) ∧
    (∃ f ∈ fl, (wndsState fl t).stable_1HX.2 = wndsSpeed f) := by
  have hp := foldl_proj WNDSState.stable_1HX (wndsStep t)
    (fun acc f => maxTie acc ((u16be f 105 : ℚ) * (1 / 100)) (wndsSpeed f))
    (fun st f => rfl) fl initWNDS
  have hzero : ∀ (sp : ℚ), (∀ f ∈ fl, u16be f 105 = 0) →
      fl.foldl (fun acc f => maxTie acc ((u16be f 105 : ℚ) * (1 / 100)) (wndsSpeed f)) (0, sp) =
        (0, (fl.map wndsSpeed).foldl max sp) := by
    clear hp hz hne
    induction fl with
    | nil => intro sp _; rfl
    | cons f l ih =>
      intro sp hz
      have hf : u16be f 105 = 0 := hz f (List.mem_cons_self f l)
      rw [List.foldl_cons, List.map_cons, List.foldl_cons]
      rw [show ((u16be f 105 : ℚ) * (1 / 100)) = 0 by rw [hf]; norm_num]
      rw [maxTie_zero]
      exact ih (max sp (wndsSpeed f)) (fun g hg => hz g (List.mem_cons_of_mem f hg))
  have hstate : (wndsState fl t).stable_1HX = (0, (fl.map wndsSpeed).foldl max 0) := by
    unfold wndsState
    rw [hp]
    exact hzero 0 hz
  obtain ⟨h1, h2, h3⟩ := foldl_max_facts (fl.map wndsSpeed) 0
  have hnonneg : ∀ f ∈ fl, (0 : ℚ) ≤ wndsSpeed f := by
    intro f _
    unfold wndsSpeed
    positivity
  refine ⟨by rw [hstate], ?_, ?_⟩
  · intro f hf
    rw [hstate]
    exact h2 (wndsSpeed f) (List.mem_map_of_mem wndsSpeed hf)
  · rcases h3 with h | h
    · obtain ⟨f0, hf0⟩ := List.exists_mem_of_ne_nil fl hne
      refine ⟨f0, hf0, ?_⟩
      rw [hstate]
      have hle : wndsSpeed f0 ≤ 0 := by
        have := h2 (wndsSpeed f0) (List.mem_map_of_mem wndsSpeed hf0)
        rw [h] at this
        exact this
      have : wndsSpeed f0 = 0 := le_antisymm hle (hnonneg f0 hf0)
      rw [h, this]
    · obtain ⟨f0, hf0, hfe⟩ := List.mem_map.mp h
      exact ⟨f0, hf0, by rw [hstate, ← hfe]⟩

/-- Witness for C10 at a concrete one-frame list whose `stable_1HX` raw
field is zero. -/
theorem claim_C10_witness : (wndsState [gf302] 23).stable_1HX.1 = 0 :=
  (claim_C10 [gf302] 23 (by decide) (by decide)).1

/-- Claim C9: on any non-empty frame list long enough for the profiles'
field accesses, the four aggregation functions return summary vectors of
fixed lengths 54 (WNDS), 55 (BIDS), 199 (GVDS) and 119 (MVDS), in a slot
order independent of the input. -/
theorem claim_C9 (fl : List (List Nat)) (t : Nat) (hne : fl ≠ [])
    (hlen : ∀ f ∈ fl, 302 ≤ f.length) :
    (WNDS_data_judge fl t).length = 54 ∧ (BIDS_data_judge fl t).length = 55 ∧
    (GVDS_data_judge fl t).length = 199 ∧ (MVDS_data_judge fl t).length = 119 := by
  refine ⟨rfl, rfl, ?_, ?_⟩
  · exact foldl_inv (fun r => r.length = 199) (gvdsStep t)
      (fun r f hr => by
        show (gvdsStep t r f).length = 199
        rw [gvdsStep_length]
        exact hr)
      fl (List.replicate 199 (Val.num 0)) (by simp)
  · exact foldl_inv (fun r => r.length = 119) (mvdsStep t)
      (fun r f hr => by
        show (mvdsStep t r f).length = 119
        rw [mvdsStep_length]
        exact hr)
      fl (List.replicate 119 (Val.num 0)) (by simp)

/-- Witness for C9 at a concrete one-frame list of a 302-byte frame. -/
theorem claim_C9_witness :
    (WNDS_data_judge [gf302] 23).length = 54 ∧ (GVDS_data_judge [gf302] 23).length = 199 :=
  ⟨(claim_C9 [gf302] 23 (by decide) (by decide)).1,
   (claim_C9 [gf302] 23 (by decide) (by decide)).2.2.1⟩

/-! ## Claims about the frame stream reader -/

/-- The scan of an exhausted source stops at once. -/
theorem readLoop_nil (t : Nat) (s e : Int) (fs p c : Nat) :
    readLoop [] t s e fs p c = ([], []) := by
  rw [readLoop_eq]
  simp

/-- Every frame the scan emits is a full slot that decoded, passed the
sanity checks and fell in the window. -/
theorem readLoop_emitted : ∀ (n : Nat) (rem : List Nat), rem.length ≤ n →
    ∀ (t : Nat) (s e : Int) (fs p c : Nat) (fr : List Nat),
      fr ∈ (readLoop rem t s e fs p c).1 → fr.length = fs ∧ slotGood fr t s e := by
  intro n
  induction n with
  | zero =>
    intro rem hlen t s e fs p c fr hmem
    have : rem = [] := List.eq_nil_of_length_eq_zero (by omega)
    subst this
    rw [readLoop_nil] at hmem
    simp at hmem
  | succ n ih =>
    intro rem hlen t s e fs p c fr hmem
    rw [readLoop_eq] at hmem
    by_cases h0 : rem.take fs = []
    · simp [h0] at hmem
    · have hfs : fs ≠ 0 := by rintro rfl; simp at h0
      have hrem : rem ≠ [] := by rintro rfl; simp at h0
      have hpos : 0 < rem.length := List.length_pos.mpr hrem
      have hdlen : (rem.drop fs).length ≤ n := by
        simp only [List.length_drop]
        omega
      rw [if_neg h0] at hmem
      by_cases h1 : (rem.take fs).length ≠ fs
      · rw [if_pos h1] at hmem
        exact ih _ hdlen t s e fs _ _ fr hmem
      · rw [if_neg h1] at hmem
        cases hx : extract_frame_time (rem.take fs) t with
        | error u =>
          simp only [hx] at hmem
          exact ih _ hdlen t s e fs _ _ fr hmem
        | ok ts =>
          simp only [hx] at hmem
          by_cases hy : ts < 0 ∨ yearOfEpoch ts < 2000 ∨ yearOfEpoch ts > 2100
          · rw [if_pos hy] at hmem
            exact ih _ hdlen t s e fs _ _ fr hmem
          · rw [if_neg hy] at hmem
            by_cases hw : s ≤ ts ∧ ts ≤ e
            · rw [if_pos hw] at hmem
              rcases List.mem_cons.mp hmem with rfl | hmem2
              · push_neg at hy
                push_neg at h1
                exact ⟨h1, ts, hx, by omega, by omega, by omega, hw.1, hw.2⟩
              · exact ih _ hdlen t s e fs _ _ fr hmem2
            · rw [if_neg hw] at hmem
              exact ih _ hdlen t s e fs _ _ fr hmem

/-- The emitted frames are a subsequence of the stream's slots: stream
order is preserved and nothing is emitted twice. -/
theorem readLoop_sublist : ∀ (n : Nat) (rem : List Nat), rem.length ≤ n →
    ∀ (t : Nat) (s e : Int) (fs p c : Nat),
      (readLoop rem t s e fs p c).1.Sublist (slotList rem fs) := by
  intro n
  induction n with
  | zero =>
    intro rem hlen t s e fs p c
    have : rem = [] := List.eq_nil_of_length_eq_zero (by omega)
    subst this
    rw [readLoop_nil]
    exact List.nil_sublist _
  | succ n ih =>
    intro rem hlen t s e fs p c
    rw [readLoop_eq, slotList_eq]
    by_cases h0 : rem.take fs = []
    · simp [h0]
    · have hfs : fs ≠ 0 := by rintro rfl; simp at h0
      have hrem : rem ≠ [] := by rintro rfl; simp at h0
      have hpos : 0 < rem.length := List.length_pos.mpr hrem
      have hdlen : (rem.drop fs).length ≤ n := by
        simp only [List.length_drop]
        omega
      rw [if_neg h0, if_neg h0]
      by_cases h1 : (rem.take fs).length ≠ fs
      · rw [if_pos h1]
        exact (ih _ hdlen t s e fs _ _).cons _
      · rw [if_neg h1]
        cases hx : extract_frame_time (rem.take fs) t with
        | error u =>
          simp only [hx]
          exact (ih _ hdlen t s e fs _ _).cons _
        | ok ts =>
          simp only [hx]
          by_cases hy : ts < 0 ∨ yearOfEpoch ts < 2000 ∨ yearOfEpoch ts > 2100
          · rw [if_pos hy]
            exact (ih _ hdlen t s e fs _ _).cons _
          · rw [if_neg hy]
            by_cases hw : s ≤ ts ∧ ts ≤ e
            · rw [if_pos hw]
              exact (ih _ hdlen t s e fs _ _).cons₂ _
            · rw [if_neg hw]
              exact (ih _ hdlen t s e fs _ _).cons _

/-- A full slot that decodes and passes the sanity checks but falls
outside the window is discarded without being treated as an error: it is
not emitted, the error log is exactly the continuation's log (no entry is
added), and the slot still counts as a success (the frame count is
incremented), with the scan continuing at the next aligned slot. -/
theorem readLoop_out_of_window_step (rem : List Nat) (t : Nat) (s e : Int)
    (fs p c : Nat) (hpos : 0 < fs) (hle : fs ≤ rem.length)
    (ho : slotOutOfWindow (rem.take fs) t s e) :
    readLoop rem t s e fs p c =
      ((readLoop (rem.drop fs) t s e fs (p + fs) (c + 1)).1,
       (readLoop (rem.drop fs) t s e fs (p + fs) (c + 1)).2) := by
  obtain ⟨ts, hx, hts0, hy1, hy2, hw⟩ := ho
  have hlen : (rem.take fs).length = fs := by
    rw [List.length_take]
    omega
  have h0 : rem.take fs ≠ [] := by
    intro h
    rw [h] at hlen
    simp at hlen
    omega
  rw [readLoop_eq, if_neg h0, if_neg (by omega : ¬(rem.take fs).length ≠ fs)]
  simp only [hx]
  rw [if_neg (by omega : ¬(ts < 0 ∨ yearOfEpoch ts < 2000 ∨ yearOfEpoch ts > 2100))]
  rw [if_neg hw]

/-- Claim C5: every frame the reader emits has length exactly
`frame_size`, has a decodable timestamp with non-negative epoch and year
in `[2000, 2100]`, and lies in the inclusive `[start, end]` window; the
emitted frames are a subsequence (in stream order) of the byte source's
slots; and a successfully decoded out-of-window slot is discarded without
being treated as an error — nothing is emitted for it, the error log
gains no entry, and it still counts as a successfully decoded frame. -/
theorem claim_C5 (rem : List Nat) (t : Nat) (s e : Int) (fs p c : Nat) :
    (∀ fr ∈ (readLoop rem t s e fs p c).1, fr.length = fs ∧ slotGood fr t s e) ∧
    (readLoop rem t s e fs p c).1.Sublist (slotList rem fs) ∧
    (0 < fs → fs ≤ rem.length → slotOutOfWindow (rem.take fs) t s e →
      readLoop rem t s e fs p c =
        ((readLoop (rem.drop fs) t s e fs (p + fs) (c + 1)).1,
         (readLoop (rem.drop fs) t s e fs (p + fs) (c + 1)).2)) :=
  ⟨fun fr h => readLoop_emitted rem.length rem le_rfl t s e fs p c fr h,
   readLoop_sublist rem.length rem le_rfl t s e fs p c,
   fun hpos hle ho => readLoop_out_of_window_step rem t s e fs p c hpos hle ho⟩

/-- Witness for C5: on a single valid in-window 255-byte frame the reader
emits it and the claim's consequences evaluate at it; the same frame
against the window `[0, 100]` (its timestamp 1742034600 lies outside) is
skipped with no error-log entry while the success count still rises. -/
theorem claim_C5_witness :
    (exFrame ∈ (readLoop exFrame 23 0 2000000000 255 0 0).1 ∧
     exFrame.length = 255 ∧ slotGood exFrame 23 0 2000000000) ∧
    readLoop exFrame 23 0 100 255 0 0 =
      ((readLoop (exFrame.drop 255) 23 0 100 255 (0 + 255) (0 + 1)).1,
       (readLoop (exFrame.drop 255) 23 0 100 255 (0 + 255) (0 + 1)).2) := by
  have hm : exFrame ∈ (readLoop exFrame 23 0 2000000000 255 0 0).1 := by decide
  obtain ⟨h1, h2⟩ := (claim_C5 exFrame 23 0 2000000000 255 0 0).1 exFrame hm
  refine ⟨⟨hm, h1, h2⟩, ?_⟩
  exact (claim_C5 exFrame 23 0 100 255 0 0).2.2 (by decide) (by decide)
    ⟨1742034600, by decide⟩

/-- A trailing incomplete slot is logged as a truncation error and the
scan then stops at the next (empty) read. -/
theorem readLoop_trunc_tail (rem : List Nat) (t : Nat) (s e : Int) (fs p c : Nat)
    (hne : rem ≠ []) (hlt : rem.length < fs) :
    readLoop rem t s e fs p c = ([], [(c, (p : Int) - 16)]) := by
  have hpos : 0 < rem.length := List.length_pos.mpr hne
  have htake : rem.take fs = rem := List.take_of_length_le (le_of_lt hlt)
  have hdrop : rem.drop fs = [] := List.drop_eq_nil_of_le (le_of_lt hlt)
  rw [readLoop_eq, htake, hdrop, readLoop_nil]
  rw [if_neg hne, if_pos (by omega : rem.length ≠ fs)]

/-- A full slot whose timestamp fails to decode or fails the sanity
checks is logged with the current frame count and its start offset minus
16, and the scan continues at the next slot with the same count. -/
theorem readLoop_bad_step (rem : List Nat) (t : Nat) (s e : Int) (fs p c : Nat)
    (hpos : 0 < fs) (hle : fs ≤ rem.length) (hbad : slotBad (rem.take fs) t) :
    readLoop rem t s e fs p c =
      ((readLoop (rem.drop fs) t s e fs (p + fs) c).1,
       (c, (p : Int) - 16) :: (readLoop (rem.drop fs) t s e fs (p + fs) c).2) := by
  have hlen : (rem.take fs).length = fs := by
    rw [List.length_take]
    omega
  have h0 : rem.take fs ≠ [] := by
    intro h
    rw [h] at hlen
    simp at hlen
    omega
  rw [readLoop_eq, if_neg h0, if_neg (by omega : ¬(rem.take fs).length ≠ fs)]
  unfold slotBad at hbad
  cases hx : extract_frame_time (rem.take fs) t with
  | error u => simp only [hx]
  | ok ts =>
    rw [hx] at hbad
    simp only [hx]
    rw [if_pos hbad]

/-- A full slot that decodes, passes the sanity checks and falls in the
window is emitted, and the scan continues with the frame count raised. -/
theorem readLoop_good_step (rem : List Nat) (t : Nat) (s e : Int) (fs p c : Nat)
    (hpos : 0 < fs) (hle : fs ≤ rem.length) (hg : slotGood (rem.take fs) t s e) :
    readLoop rem t s e fs p c =
      (rem.take fs :: (readLoop (rem.drop fs) t s e fs (p + fs) (c + 1)).1,
       (readLoop (rem.drop fs) t s e fs (p + fs) (c + 1)).2) := by
  obtain ⟨ts, hx, hts0, hy1, hy2, hw1, hw2⟩ := hg
  have hlen : (rem.take fs).length = fs := by
    rw [List.length_take]
    omega
  have h0 : rem.take fs ≠ [] := by
    intro h
    rw [h] at hlen
    simp at hlen
    omega
  rw [readLoop_eq, if_neg h0, if_neg (by omega : ¬(rem.take fs).length ≠ fs)]
  simp only [hx]
  rw [if_neg (by omega : ¬(ts < 0 ∨ yearOfEpoch ts < 2000 ∨ yearOfEpoch ts > 2100))]
  rw [if_pos ⟨hw1, hw2⟩]

/-- Claim C6: per-frame errors never abort the scan.  A failed full slot
only contributes a diagnostic entry and the scan continues at the next
`frame_size`-aligned position; a source whose remaining length is not a
multiple of `frame_size` ends with one truncation diagnostic at the first
incomplete read and terminates cleanly. -/
theorem claim_C6 (rem : List Nat) (t : Nat) (s e : Int) (fs p c : Nat) :
    (rem ≠ [] → rem.length < fs →
      readLoop rem t s e fs p c = ([], [(c, (p : Int) - 16)])) ∧
    (0 < fs → fs ≤ rem.length → slotBad (rem.take fs) t →
      readLoop rem t s e fs p c =
        ((readLoop (rem.drop fs) t s e fs (p + fs) c).1,
         (c, (p : Int) - 16) :: (readLoop (rem.drop fs) t s e fs (p + fs) c).2)) :=
  ⟨fun hne hlt => readLoop_trunc_tail rem t s e fs p c hne hlt,
   fun hpos hle hbad => readLoop_bad_step rem t s e fs p c hpos hle hbad⟩

/-- Witness for C6: a 3-byte tail with frame size 255 terminates with the
single truncation diagnostic, and a full 255-byte slot of zero bytes
(month byte 0, undecodable) is logged and skipped. -/
theorem claim_C6_witness :
    readLoop [0, 0, 0] 23 0 0 255 0 0 = ([], [(0, (0 : Int) - 16)]) ∧
    readLoop (List.replicate 255 0) 23 0 0 255 0 0 =
      ((readLoop ((List.replicate 255 0).drop 255) 23 0 0 255 (0 + 255) 0).1,
       (0, (0 : Int) - 16) :: (readLoop ((List.replicate 255 0).drop 255) 23 0 0 255 (0 + 255) 0).2) :=
  ⟨(claim_C6 [0, 0, 0] 23 0 0 255 0 0).1 (by decide) (by decide),
   (claim_C6 (List.replicate 255 0) 23 0 0 255 0 0).2 (by decide) (by decide) (by decide)⟩

/-- Counterexample to C7 as stated: on a source of two undecodable
255-byte slots (no header skip, `frame_offset = 0`), the log is
`[(0, -16), (0, 239)]`.  The claim predicts frame indices `[0, 1]`
(counting every consumed slot, including corrupted ones) and byte offsets
`[0, 255]` (the slots' offsets in the source); the code counts only
successfully decoded slots, so both entries carry index 0, and it tags
`frame_start - 16`, so the offsets are `-16` and `239`. -/
theorem claim_C7_counterexample :
    (read_binary_file (List.replicate 510 0) 0 23 0 0 255).2 = [(0, -16), (0, 239)] ∧
    (read_binary_file (List.replicate 510 0) 0 23 0 0 255).2.map Prod.fst ≠ [0, 1] ∧
    (read_binary_file (List.replicate 510 0) 0 23 0 0 255).2.map Prod.snd ≠ [0, 255] :=
  ⟨by decide, by decide, by decide⟩

/-- Claim C7 (amended): each error-log entry carries the number of
successfully decoded slots so far (corrupted slots are not counted) and
the failed slot's absolute start offset minus 16 (the assumed file-header
size).  For a stream of three full slots whose middle slot is corrupted,
the reader emits the two valid frames in order, logs exactly one
diagnostic `(1, 255 - 16)`, and the third frame stays correctly
aligned. -/
theorem claim_C7_amended (f1 f2 f3 : List Nat) (t : Nat) (s e : Int)
    (h1 : f1.length = 255) (h2 : f2.length = 255) (h3 : f3.length = 255)
    (hg1 : slotGood f1 t s e) (hb2 : slotBad f2 t) (hg3 : slotGood f3 t s e) :
    read_binary_file (f1 ++ f2 ++ f3) 0 t s e 255 = ([f1, f3], [(1, (255 : Int) - 16)]) := by
  unfold read_binary_file
  rw [List.drop_zero, List.append_assoc]
  have t1 : (f1 ++ (f2 ++ f3)).take 255 = f1 := by
    rw [← h1]
    exact List.take_left _ _
  have d1 : (f1 ++ (f2 ++ f3)).drop 255 = f2 ++ f3 := by
    rw [← h1]
    exact List.drop_left _ _
  rw [readLoop_good_step _ _ _ _ _ _ _ (by omega)
    (by simp only [List.length_append]; omega) (by rw [t1]; exact hg1)]
  rw [t1, d1]
  have t2 : (f2 ++ f3).take 255 = f2 := by
    rw [← h2]
    exact List.take_left _ _
  have d2 : (f2 ++ f3).drop 255 = f3 := by
    rw [← h2]
    exact List.drop_left _ _
  rw [readLoop_bad_step _ _ _ _ _ _ _ (by omega)
    (by simp only [List.length_append]; omega) (by rw [t2]; exact hb2)]
  rw [d2]
  have t3 : f3.take 255 = f3 := List.take_of_length_le (by omega)
  have d3 : f3.drop 255 = [] := List.drop_eq_nil_of_le (by omega)
  rw [readLoop_good_step _ _ _ _ _ _ _ (by omega) (by omega) (by rw [t3]; exact hg3)]
  rw [t3, d3, readLoop_nil]
  norm_num

/-- Witness for the amended C7 on concrete frames: two valid 2025-01-01
frames around one all-zero (undecodable) slot. -/
theorem claim_C7_witness :
    read_binary_file (gf255 ++ List.replicate 255 0 ++ gf255) 0 23 0 2000000000 255 =
      ([gf255, gf255], [(1, (255 : Int) - 16)]) :=
  claim_C7_amended gf255 (List.replicate 255 0) gf255 23 0 2000000000
    (by decide) (by decide) (by decide)
    ⟨1735689600, by decide⟩ (by decide) ⟨1735689600, by decide⟩

/-! ## Claim about the run dispatch -/

/-- Claim C8: when the reader's frame list is empty, the per-file run
reports the distinguishable empty outcome and no data-judge function is
invoked; the empty outcome is distinct from every aggregation result. -/
theorem claim_C8 (profile : Profile) (data : List Nat) (fo t : Nat) (s e : Int)
    (fs : Nat) (h : (read_binary_file data fo t s e fs).1 = []) :
    data_process_one profile data fo t s e fs = RunOutcome.emptyData ∧
    ∀ v, RunOutcome.emptyData ≠ RunOutcome.result v := by
  constructor
  · unfold data_process_one
    simp [h]
  · intro v hv
    cases hv

/-- Witness for C8: an empty byte source yields no frames, the empty
outcome is reported, aggregation is skipped. -/
theorem claim_C8_witness :
    data_process_one Profile.WNDS [] 0 23 0 0 255 = RunOutcome.emptyData :=
  (claim_C8 Profile.WNDS [] 0 23 0 0 255 (by decide)).1

/-! ## Claim about the mis-indexed GVDS store blocks -/

/-- Claim C1 names the rule "the stored best value is the decoded value
of the very field that was compared"; the GVDS blocks over frame bytes
176..179 and 146..149 (source lines 975-981 and 1010-1016) compare
`frame[base + i]` but store `frame[base + i * 2]`.  At a frame that is
zero except `frame[177] = 7`, the winning comparison at `i = 1` stores
`frame[178] = 0` into result slot 65, while the uniform block used by
the other twenty-two byte channels stores the compared value 7. -/
theorem claim_C1 :
    gf302.getD 177 0 = 7 ∧
    (gvdsByteBlockShiftStore gf302 0 176 63 (List.replicate 199 (Val.num 0))).getD 65
      (Val.num 99) = Val.num 0 ∧
    (gvdsByteBlock gf302 0 176 63 (List.replicate 199 (Val.num 0))).getD 65
      (Val.num 99) = Val.num 7 :=
  ⟨by decide, by decide, by decide⟩

/-- Witness for C4: the decoder's success value on the example frame is
the epoch of its six decoded fields. -/
theorem claim_C4_witness :
    (1742034600 : Int) = unixEpoch (2000 + exFrame.getD 23 0) (exFrame.getD 24 0)
      (exFrame.getD 25 0) (exFrame.getD 26 0) (exFrame.getD 27 0) (exFrame.getD 28 0) :=
  claim_C4.2.1 exFrame 23 1742034600 (by decide)
